import Mathlib

/-!
Shallow embedding of the specter repository JPEG/JFIF/Exif metadata
parsing core, translated from the Rust sources:

* `src/libmeta/src/meta/exif/exif.rs`   (TIFF/Exif IFD engine)
* `src/libmeta/src/meta/exif/field.rs`  (`IfdField` accessors)
* `src/libmeta/src/meta/exif/ifd.rs`    (`Ifd`, `field_by_tag`)
* `src/libmeta/src/meta/exif/tag/rational.rs` (`Rational`)
* `src/libmeta/src/meta/jfif.rs`        (JFIF decoder)
* `src/libmeta/src/container/jpeg/jpeg.rs` and `src/libmeta/src/meta/slice.rs`
  (segment scanner over a forward-only reader)
* `src/libmeta/src/formats/jpeg/segment.rs` (slice-based segment parser)
* `src/libmeta/src/meta/meta.rs`        (metadata facade)

Bytes are modelled as `Nat` (each byte of a real input is `< 256`), byte
buffers as `List Nat`, and the nom streaming combinators over a slice suffix
as explicit positions into the full buffer.  Fallible Rust code returns
`PResult`, whose `panicked` constructor records a Rust debug-build panic
(checked-arithmetic overflow or out-of-bounds slice indexing).
-/

namespace Specter

/-- Result of running a fallible Rust function: `ok`, an `Err` value, or a
panic (debug-build arithmetic overflow / slice out of bounds). -/
inductive PResult (ε α : Type) : Type
  | ok (a : α) : PResult ε α
  | err (e : ε) : PResult ε α
  | panicked : PResult ε α
deriving DecidableEq

/-- TIFF byte order, from `meta/exif/endian.rs`. -/
inductive Endian : Type
  | big
  | little
deriving DecidableEq

/-- Error kinds distinguished by the Exif IFD engine.  The engine error
type is constructed via `ExifError::parse(msg)` and `ExifError::offset_zero()`
and inspected via `kind()` in `parse_ifds`; only the `OffsetIsZero` kind is
ever matched on. -/
inductive ExifErrorKind : Type
  | parseFailed
  | offsetIsZero
deriving DecidableEq

/-- Labels for the context strings passed to `ExifError::parse` in
`meta/exif/exif.rs` and `field.rs` (one label per distinct message). -/
inductive ExifCtx : Type
  | none                    -- no context (offset_zero)
  | exifHeader              -- ": Exif header"
  | tiffEndian              -- ": TIFF endian"
  | tiffVersion             -- ": TIFF version"
  | tiffVersionInvalid      -- ": TIFF version invalid"
  | offsetToIfd             -- ": Offset to IFD"
  | ifdFieldCount           -- ": IFD field count"
  | ifdFieldTag             -- ": IFD field tag"
  | ifdFieldDataFormat      -- ": IFD field data format"
  | ifdFieldComponents      -- ": IFD field components"
  | ifdDataOrOffset         -- ": IFD data or offset"
  | ifdFieldOffsetNegative  -- ": IFD field offset is negative"
  | ifdFieldOffset          -- ": IFD field offset"
  | ifdFieldData            -- ": IFD field data"
  | noDataToRational        -- ": no data to convert to rational"
  | rationalMustBe8         -- ": rational must be 8 bytes long"
deriving DecidableEq

/-- The Exif engine error value: a kind plus the message label. -/
structure ExifError : Type where
  kind : ExifErrorKind
  ctx : ExifCtx
deriving DecidableEq

/-- `ExifError::parse(msg)`. -/
def ExifError.parse (c : ExifCtx) : ExifError := ⟨ExifErrorKind.parseFailed, c⟩

/-- `ExifError::offset_zero()`. -/
def ExifError.offsetZero : ExifError := ⟨ExifErrorKind.offsetIsZero, ExifCtx.none⟩

/-- Read one byte at `pos` (nom consumes from the suffix starting at `pos`). -/
def byteAt (input : List Nat) (pos : Nat) : Option Nat := input.get? pos

/-- nom streaming `be_u16`/`le_u16` on the suffix of `input` at `pos`:
`none` models `nom::Err::Incomplete`. -/
def u16At (input : List Nat) (pos : Nat) (e : Endian) : Option Nat :=
  match input.get? pos, input.get? (pos + 1) with
  | some a, some b =>
      some (match e with
        | Endian.big => a * 256 + b
        | Endian.little => b * 256 + a)
  | _, _ => none

/-- nom streaming `be_u32`/`le_u32` on the suffix of `input` at `pos`. -/
def u32At (input : List Nat) (pos : Nat) (e : Endian) : Option Nat :=
  match input.get? pos, input.get? (pos + 1), input.get? (pos + 2), input.get? (pos + 3) with
  | some a, some b, some c, some d =>
      some (match e with
        | Endian.big => ((a * 256 + b) * 256 + c) * 256 + d
        | Endian.little => ((d * 256 + c) * 256 + b) * 256 + a)
  | _, _, _, _ => none

/-- `u32::to_be_bytes`. -/
def beBytes4 (v : Nat) : List Nat :=
  [v / 16777216 % 256, v / 65536 % 256, v / 256 % 256, v % 256]

/-- `IfdField` from `meta/exif/field.rs` (the `Tag` newtype is kept as the
raw `u16` value it wraps). -/
structure IfdField : Type where
  endian : Endian
  tag : Nat
  format : Nat
  components : Nat
  offset : Option Nat
  data : Option (List Nat)
deriving DecidableEq

/-- `IfdField::new`. -/
def IfdField.new (e : Endian) (tag format components : Nat) : IfdField :=
  ⟨e, tag, format, components, Option.none, Option.none⟩

/-- `IfdField::length`: data byte length from the format code and component
count.  Formats 1,2,6,7 are 1 byte per component; 3,8 are 2; 4,9,11 are 4;
5,10,12 are 8; unknown format codes yield 0. -/
def IfdField.length (f : IfdField) : Nat :=
  match f.format with
  | 1 => f.components        -- UNSIGNED_BYTE
  | 2 => f.components        -- ASCII_STRING
  | 3 => f.components * 2    -- UNSIGNED_SHORT
  | 4 => f.components * 4    -- UNSIGNED_LONG
  | 5 => f.components * 8    -- UNSIGNED_RATIONAL
  | 6 => f.components        -- SIGNED_BYTE
  | 7 => f.components        -- UNDEFINED
  | 8 => f.components * 2    -- SIGNED_SHORT
  | 9 => f.components * 4    -- SIGNED_LONG
  | 10 => f.components * 8   -- SIGNED_RATIONAL
  | 11 => f.components * 4   -- SINGLE_FLOAT
  | 12 => f.components * 8   -- DOUBLE_FLOAT
  | _ => 0

/-- Bytes of `data` up to (excluding) the first NUL, as characters;
used by `IfdField::to_ascii`. -/
def asciiChars : List Nat → List Char
  | [] => []
  | b :: rest => if b = 0 then [] else Char.ofNat b :: asciiChars rest

/-- `IfdField::to_ascii`. -/
def IfdField.to_ascii (f : IfdField) : Option String :=
  match f.data with
  | Option.none => Option.none
  | Option.some d => Option.some (String.mk (asciiChars d))

/-- `IfdField::to_unsigned`: decode the first 1/2/4 data bytes as an
unsigned integer in the field endianness, by format code. -/
def IfdField.to_unsigned (f : IfdField) : Option Nat :=
  match f.data with
  | Option.none => Option.none
  | Option.some d =>
    match f.format with
    | 1 =>  -- UNSIGNED_BYTE
      match d with
      | b :: _ => Option.some b
      | [] => Option.none
    | 3 =>  -- UNSIGNED_SHORT: u16 from the first two bytes
      match d with
      | b0 :: b1 :: _ =>
        Option.some (match f.endian with
          | Endian.little => b0 + b1 * 256
          | Endian.big => b0 * 256 + b1)
      | _ => Option.none
    | 4 =>  -- UNSIGNED_LONG: u32 from the first four bytes
      match d with
      | b0 :: b1 :: b2 :: b3 :: _ =>
        Option.some (match f.endian with
          | Endian.little => ((b3 * 256 + b2) * 256 + b1) * 256 + b0
          | Endian.big => ((b0 * 256 + b1) * 256 + b2) * 256 + b3)
      | _ => Option.none
    | _ => Option.none

/-- `Rational` from `meta/exif/tag/rational.rs`. -/
structure Rational : Type where
  num : Nat
  den : Nat
deriving DecidableEq

/-- `Rational::try_from`: first 8 bytes as two u32s in the given endianness;
fewer than 8 bytes is a parse error. -/
def Rational.tryFrom (val : List Nat) (e : Endian) : PResult ExifError Rational :=
  match val with
  | a :: b :: c :: d :: p :: q :: r :: s :: _ =>
    match e with
    | Endian.little =>
      PResult.ok ⟨((d * 256 + c) * 256 + b) * 256 + a, ((s * 256 + r) * 256 + q) * 256 + p⟩
    | Endian.big =>
      PResult.ok ⟨((a * 256 + b) * 256 + c) * 256 + d, ((p * 256 + q) * 256 + r) * 256 + s⟩
  | _ => PResult.err (ExifError.parse ExifCtx.rationalMustBe8)

/-- Body of `IfdField::to_rationals`: slice the data into 8-byte chunks.
Rust indexes `data[i..i+8]` on a chunk shorter than 8 bytes, which is an
out-of-bounds slice panic. -/
def ratsFrom (e : Endian) : List Nat → PResult ExifError (List Rational)
  | [] => PResult.ok []
  | a :: b :: c :: d :: p :: q :: r :: s :: rest =>
    match Rational.tryFrom [a, b, c, d, p, q, r, s] e, ratsFrom e rest with
    | PResult.ok r1, PResult.ok rs => PResult.ok (r1 :: rs)
    | PResult.err er, _ => PResult.err er
    | _, PResult.err er => PResult.err er
    | _, _ => PResult.panicked
  | _ => PResult.panicked

/-- `IfdField::to_rationals`. -/
def IfdField.to_rationals (f : IfdField) : PResult ExifError (List Rational) :=
  match f.data with
  | Option.none => PResult.err (ExifError.parse ExifCtx.noDataToRational)
  | Option.some d => ratsFrom f.endian d

/-- `Ifd` from `meta/exif/ifd.rs`. -/
structure Ifd : Type where
  endian : Endian
  fields : List IfdField
deriving DecidableEq

/-- `Ifd::field_by_tag`. -/
def Ifd.fieldByTag (ifd : Ifd) (t : Nat) : Option IfdField :=
  ifd.fields.find? (fun f => f.tag == t)

/-- `parse_ifd_data_or_offset` (`meta/exif/exif.rs`): read the 4-byte
value/offset word in the endianness of the IFD; the returned data bytes are the
word re-serialized in big-endian (`offset.to_be_bytes()`); a zero word is
the `OffsetIsZero` error used to stop the IFD chain. -/
def parse_ifd_data_or_offset (input : List Nat) (pos : Nat) (e : Endian) :
    PResult ExifError (Nat × List Nat × Nat) :=
  match u32At input pos e with
  | Option.none => PResult.err (ExifError.parse ExifCtx.ifdDataOrOffset)
  | Option.some v =>
    if v = 0 then PResult.err ExifError.offsetZero
    else PResult.ok (pos + 4, beBytes4 v, v)

/-- `parse_ifd_field` (`meta/exif/exif.rs`): a 12-byte field header
`tag(2) format(2) components(4) value-or-offset(4)`, followed, when the
data length exceeds 4, by resolving the offset against the full
TIFF-header-relative buffer.  The source checks `consumed > offset`
explicitly (negative offset), then skips forward with `nom::take` (which
fails when `offset > input.len()`, noting `offset = consumed` skips
nothing and `consumed ≤ input.len()` always holds here), then takes
`length` bytes at the offset. -/
def parse_ifd_field (input : List Nat) (pos : Nat) (e : Endian) :
    PResult ExifError (Nat × IfdField) :=
  match u16At input pos e with
  | Option.none => PResult.err (ExifError.parse ExifCtx.ifdFieldTag)
  | Option.some tag =>
  match u16At input (pos + 2) e with
  | Option.none => PResult.err (ExifError.parse ExifCtx.ifdFieldDataFormat)
  | Option.some format =>
  match u32At input (pos + 4) e with
  | Option.none => PResult.err (ExifError.parse ExifCtx.ifdFieldComponents)
  | Option.some components =>
  match parse_ifd_data_or_offset input (pos + 8) e with
  | PResult.err er => PResult.err er
  | PResult.panicked => PResult.panicked
  | PResult.ok (pos2, dataBytes, offset) =>
    let f := IfdField.new e tag format components
    if 4 < f.length then
      -- consumed = input.len() - remain.len() = pos2
      if offset < pos2 then PResult.err (ExifError.parse ExifCtx.ifdFieldOffsetNegative)
      else if input.length < offset then PResult.err (ExifError.parse ExifCtx.ifdFieldOffset)
      else if input.length < offset + f.length then PResult.err (ExifError.parse ExifCtx.ifdFieldData)
      else
        PResult.ok (pos2,
          { f with offset := Option.some offset,
                   data := Option.some ((input.drop offset).take f.length) })
    else
      PResult.ok (pos2, { f with data := Option.some dataBytes })

/-- Field loop of `parse_ifd`: parse `count` consecutive 12-byte fields. -/
def parse_ifd_fieldsAux (input : List Nat) (e : Endian) :
    Nat → Nat → List IfdField → PResult ExifError (Nat × List IfdField)
  | 0, pos, acc => PResult.ok (pos, acc)
  | count + 1, pos, acc =>
    match parse_ifd_field input pos e with
    | PResult.ok (pos', f) => parse_ifd_fieldsAux input e count pos' (acc ++ [f])
    | PResult.err er => PResult.err er
    | PResult.panicked => PResult.panicked

/-- `parse_ifd` (`meta/exif/exif.rs`): a 2-byte field count followed by
that many fields. -/
def parse_ifd (input : List Nat) (pos : Nat) (e : Endian) : PResult ExifError (Nat × Ifd) :=
  match u16At input pos e with
  | Option.none => PResult.err (ExifError.parse ExifCtx.ifdFieldCount)
  | Option.some count =>
    match parse_ifd_fieldsAux input e count (pos + 2) [] with
    | PResult.ok (pos', fs) => PResult.ok (pos', Ifd.mk e fs)
    | PResult.err er => PResult.err er
    | PResult.panicked => PResult.panicked

/-- Loop body of `parse_ifds` (`meta/exif/exif.rs`).  Each iteration reads
the 4-byte next-IFD offset (a zero word breaks the loop), then skips to the
offset with `nom::take(offset - consumed)`: the source performs this
`usize` subtraction unchecked, so `consumed > offset` is an arithmetic
overflow panic in a debug build (modelled by `panicked`); `offset` past the
end of the buffer makes the take fail.  The `fuel` argument only bounds the
loop: every successful iteration advances the position by at least 6 bytes
and positions never exceed `input.length`, so `input.length + 1` fuel is
never exhausted before the Rust loop itself stops. -/
def parse_ifdsAux (input : List Nat) (e : Endian) :
    Nat → Nat → List Ifd → PResult ExifError (Nat × List Ifd)
  | 0, _, _ => PResult.panicked
  | fuel + 1, pos, acc =>
    match parse_ifd_data_or_offset input pos e with
    | PResult.err er =>
      match er.kind with
      | ExifErrorKind.offsetIsZero => PResult.ok (pos, acc)
      | _ => PResult.err er
    | PResult.panicked => PResult.panicked
    | PResult.ok (pos2, _, offset) =>
      if offset < pos2 then PResult.panicked  -- `offset - consumed` underflows (debug panic)
      else if input.length < offset then PResult.err (ExifError.parse ExifCtx.offsetToIfd)
      else
        match parse_ifd input offset e with
        | PResult.ok (pos3, ifd) => parse_ifdsAux input e fuel pos3 (acc ++ [ifd])
        | PResult.err er => PResult.err er
        | PResult.panicked => PResult.panicked

/-- `parse_ifds` (`meta/exif/exif.rs`). -/
def parse_ifds (input : List Nat) (pos : Nat) (e : Endian) :
    PResult ExifError (Nat × List Ifd) :=
  parse_ifdsAux input e (input.length + 1) pos []

/-- `Exif` (`meta/exif/exif.rs`). -/
structure Exif : Type where
  ifds : List Ifd
deriving DecidableEq

/-- Tail of `Exif::parse` once the endianness is known: the TIFF version
word (must be 0x002A in the resolved endianness), then the IFD chain
starting at position 4 of the TIFF-header-relative buffer. -/
def Exif.parseAfterEndian (exifData : List Nat) (e : Endian) : PResult ExifError Exif :=
  match u16At exifData 2 e with
  | Option.none => PResult.err (ExifError.parse ExifCtx.tiffVersion)
  | Option.some marker =>
    if marker ≠ 42 then PResult.err (ExifError.parse ExifCtx.tiffVersionInvalid)
    else
      match parse_ifds exifData 4 e with
      | PResult.ok (_, ifds) => PResult.ok (Exif.mk ifds)
      | PResult.err er => PResult.err er
      | PResult.panicked => PResult.panicked

/-- `Exif::parse`: the 6-byte `Exif\0\0` identifier, the 2-byte byte-order
mark (`MM`/`II`), then `Exif.parseAfterEndian` on the TIFF-header-relative
buffer (everything after the identifier). -/
def Exif.parse (payload : List Nat) : PResult ExifError Exif :=
  match payload with
  | 69 :: 120 :: 105 :: 102 :: 0 :: 0 :: exifData =>
    match exifData with
    | 77 :: 77 :: _ => Exif.parseAfterEndian exifData Endian.big
    | 73 :: 73 :: _ => Exif.parseAfterEndian exifData Endian.little
    | _ => PResult.err (ExifError.parse ExifCtx.tiffEndian)
  | _ => PResult.err (ExifError.parse ExifCtx.exifHeader)

/-! JFIF decoder, from `meta/jfif.rs`. -/

/-- `DensityUnit` (`meta/jfif.rs`). -/
inductive DensityUnit : Type
  | pixelsPerInch
  | pixelsPerCm
  | none
  | unknown
deriving DecidableEq

/-- `From<u8> for DensityUnit`. -/
def densityFromByte (b : Nat) : DensityUnit :=
  if b = 0 then DensityUnit.none
  else if b = 1 then DensityUnit.pixelsPerInch
  else if b = 2 then DensityUnit.pixelsPerCm
  else DensityUnit.unknown

/-- Labels for the per-step JFIF failures of `meta/jfif.rs` (the kinds of
`JfifErrorKind` in `errors/jfif.rs`). -/
inductive JfifErrorKind : Type
  | identifierInvalid
  | versionInvalid
  | densityUnitsInvalid
  | densityUnitsUnknown
  | thumbnailInvalid
  | thumbnailDimensionsInvalid
deriving DecidableEq

/-- The JFIF decoder error: the kind plus the `with_data` bytes. -/
structure JfifError : Type where
  kind : JfifErrorKind
  data : List Nat
deriving DecidableEq

/-- `Jfif` (`meta/jfif.rs`). -/
structure Jfif : Type where
  major : Nat
  minor : Nat
  density : DensityUnit
  x_density : Nat
  y_density : Nat
  x_dimension : Nat
  y_dimension : Nat
  thumbnail : Option (List Nat)
deriving DecidableEq

/-- `Jfif::parse` (`meta/jfif.rs`): the 5-byte `JFIF\0` identifier, 2-byte
version, 1-byte density unit (unknown codes are an error), 2+2-byte
big-endian densities, 1+1-byte thumbnail dimensions; if both thumbnail
dimensions are non-zero the parse fails with the thumbnail-invalid error
carrying the remaining bytes, otherwise the thumbnail is `none`. -/
def Jfif.parse (input : List Nat) : PResult JfifError Jfif :=
  match input with
  | 74 :: 70 :: 73 :: 70 :: 0 :: r1 =>
    match r1 with
    | major :: minor :: r2 =>
      match r2 with
      | du :: x1 :: x2 :: y1 :: y2 :: r3 =>
        let density := densityFromByte du
        if density = DensityUnit.unknown then
          PResult.err ⟨JfifErrorKind.densityUnitsUnknown, [du]⟩
        else
          match r3 with
          | xt :: yt :: r4 =>
            if xt ≠ 0 ∧ yt ≠ 0 then PResult.err ⟨JfifErrorKind.thumbnailInvalid, r4⟩
            else
              PResult.ok ⟨major, minor, density, x1 * 256 + x2, y1 * 256 + y2,
                xt, yt, Option.none⟩
          | _ => PResult.err ⟨JfifErrorKind.thumbnailDimensionsInvalid, []⟩
      | _ => PResult.err ⟨JfifErrorKind.densityUnitsInvalid, []⟩
    | _ => PResult.err ⟨JfifErrorKind.versionInvalid, []⟩
  | _ => PResult.err ⟨JfifErrorKind.identifierInvalid, []⟩

/-! JPEG container: segment scanner from `container/jpeg/jpeg.rs` with the
reader helpers from `meta/slice.rs`, the slice-based segment parser from
`formats/jpeg/segment.rs`, and the metadata facade from `meta/meta.rs`.

Modelled from the spec: the newer-generation `JpegError` type used by
these modules (constructed via `JpegError::parse`, `JpegError::truncated`
and `JpegError::read_failed`) is not among the sources; per spec section 7
it distinguishes a retryable `Truncated` kind from permanent structural
(`ParseFailed`) and I/O (`ReadFailed`) kinds, and its `with_nom_source`
records a `nom::Err::Incomplete` as the `Truncated` kind (visible in the
unit tests of `formats/jpeg/segment.rs`). -/

/-- Error kinds of the JPEG layer (see module comment above). -/
inductive JpegErrorKind : Type
  | truncated
  | parseFailed
  | readFailed
deriving DecidableEq

/-- Labels for the context strings attached to JPEG-layer errors. -/
inductive JpegCtx : Type
  | segmentMarker        -- ": segment marker"
  | segmentMarkerUnknown -- ": segment marker unknown"
  | segmentMarkerSearch  -- ": segment marker search"
  | segmentLength        -- ": segment length"
  | segmentLengthTooShort -- ": segment length too short"
  | segmentData          -- ": segment data"
  | invalidHeader        -- ": invalid header"
  | noSegmentsFound      -- ": no segments found"
  | jfifParsing          -- ": jfif parsing"
  | exifParsing          -- ": exif parsing"
deriving DecidableEq

/-- The JPEG layer error value: a kind, a message label and the
`with_data` bytes (wrapped source errors are not tracked). -/
structure JpegError : Type where
  kind : JpegErrorKind
  ctx : JpegCtx
  data : List Nat
deriving DecidableEq

/-- `JpegError::parse(msg)`. -/
def JpegError.parse (c : JpegCtx) : JpegError := ⟨JpegErrorKind.parseFailed, c, []⟩

/-- `JpegError::truncated().with_msg(msg)`. -/
def JpegError.truncated (c : JpegCtx) : JpegError := ⟨JpegErrorKind.truncated, c, []⟩

/-- `JpegError::read_failed(msg)`. -/
def JpegError.readFailed (c : JpegCtx) : JpegError := ⟨JpegErrorKind.readFailed, c, []⟩

/-- `Segment` (`container/jpeg/segment.rs` / `formats/jpeg/segment.rs`). -/
structure Segment : Type where
  marker : List Nat
  length : Nat
  data : Option (List Nat)
deriving DecidableEq

/-- `slice::skip_until`: consume reader bytes up to and including the first
occurrence of `m`; if `m` never occurs, everything is consumed; the flag is
false only when zero bytes were read (reader already at EOF). -/
def skip_until : List Nat → Nat → Bool × List Nat
  | [], _ => (false, [])
  | b :: rest, m =>
    if b = m then (true, rest)
    else (true, (skip_until rest m).2)

/-- Loop body of `parse_segments` (`container/jpeg/jpeg.rs`): skip to the
next `0xFF`, read the marker number; APP0/APP1 segments have a 2-byte
big-endian length that includes its own two bytes (a value below 2 is a
permanent error) followed by that many payload bytes; any other marker
stops the scan.  The second component of the result is the unconsumed
remainder of the reader.  `fuel` only bounds the loop (each iteration
consumes at least one byte, so `reader.length + 1` is never exhausted). -/
def parse_segmentsAux :
    Nat → List Nat → List Segment → PResult JpegError (List Segment × List Nat)
  | 0, _, _ => PResult.panicked
  | fuel + 1, r, acc =>
    match skip_until r 255 with
    | (false, _) =>
      if acc = [] then PResult.err (JpegError.parse JpegCtx.noSegmentsFound)
      else PResult.ok (acc, [])
    | (true, r1) =>
      match r1 with
      | [] => PResult.err (JpegError.readFailed JpegCtx.segmentMarker)
      | n :: r2 =>
        if n = 224 ∨ n = 225 then  -- APP0 | APP1
          match r2 with
          | l0 :: l1 :: r3 =>
            let len := l0 * 256 + l1
            if len < 2 then PResult.err (JpegError.parse JpegCtx.segmentLengthTooShort)
            else if r3.length < len - 2 then
              PResult.err (JpegError.readFailed JpegCtx.segmentData)
            else
              parse_segmentsAux fuel (r3.drop (len - 2))
                (acc ++ [Segment.mk [255, n] (len - 2) (Option.some (r3.take (len - 2)))])
          | _ => PResult.err (JpegError.readFailed JpegCtx.segmentLength)
        else  -- any non-metadata marker (SOS included) stops the scan
          if acc = [] then PResult.err (JpegError.parse JpegCtx.noSegmentsFound)
          else PResult.ok (acc, r2)

/-- `parse_segments` (`container/jpeg/jpeg.rs`), returning the scanned
segments together with the unconsumed remainder of the reader. -/
def parse_segments (r : List Nat) : PResult JpegError (List Segment × List Nat) :=
  parse_segmentsAux (r.length + 1) r []

/-- `Jpeg` (`container/jpeg/jpeg.rs`). -/
structure Jpeg : Type where
  segments : List Segment
deriving DecidableEq

/-- `Jpeg::is_jpeg`: the buffer starts with the SOI marker `0xFF 0xD8`. -/
def is_jpeg (header : List Nat) : Bool :=
  List.isPrefixOf [255, 216] header

/-- `Jpeg::parse`: check the 2-byte SOI header, then scan segments from
the rest of the stream. -/
def Jpeg.parse (input : List Nat) : PResult JpegError Jpeg :=
  if is_jpeg (input.take 2) then
    match parse_segments (input.drop 2) with
    | PResult.ok (segs, _) => PResult.ok (Jpeg.mk segs)
    | PResult.err er => PResult.err er
    | PResult.panicked => PResult.panicked
  else PResult.err (JpegError.parse JpegCtx.invalidHeader)

/-- `Jpeg::jfif`: decode the payload of the first APP0 segment, if any;
the decode error is wrapped as a JPEG-layer parse error. -/
def Jpeg.jfif (j : Jpeg) : Option (PResult JpegError Jfif) :=
  match j.segments.find? (fun s => s.marker == [255, 224]) with
  | Option.some s =>
    match s.data with
    | Option.some d =>
      Option.some (match Jfif.parse d with
        | PResult.ok jf => PResult.ok jf
        | PResult.err _ => PResult.err (JpegError.parse JpegCtx.jfifParsing)
        | PResult.panicked => PResult.panicked)
    | Option.none => Option.none
  | Option.none => Option.none

/-- `Jpeg::exif`: decode the payload of the first APP1 segment, if any;
the decode error is wrapped as a JPEG-layer parse error. -/
def Jpeg.exif (j : Jpeg) : Option (PResult JpegError Exif) :=
  match j.segments.find? (fun s => s.marker == [255, 225]) with
  | Option.some s =>
    match s.data with
    | Option.some d =>
      Option.some (match Exif.parse d with
        | PResult.ok ex => PResult.ok ex
        | PResult.err _ => PResult.err (JpegError.parse JpegCtx.exifParsing)
        | PResult.panicked => PResult.panicked)
    | Option.none => Option.none
  | Option.none => Option.none

/-- `MetaError` (`errors/meta.rs`): either the unknown-header error or a
wrapped JPEG-layer error. -/
inductive MetaError : Type
  | unknownHeader (header : List Nat)
  | jpeg (e : JpegError)
deriving DecidableEq

/-- `Meta` (`meta/meta.rs`): the parsed container plus the cached JFIF and
Exif values (the `RefCell` caches after `cache_jfif`/`cache_exif` ran). -/
structure Meta : Type where
  container : Option Jpeg
  jfif : Option Jfif
  exif : Option Exif
deriving DecidableEq

/-- The cache update of `Meta::cache_jfif`/`cache_exif`: the cache is set
only when the segment was present and its payload decoded successfully;
a decode error (and an absent segment) leaves the cache `none`, and the
`Option<MetaResult<()>>` telling the two cases apart is dropped on the
floor by `Meta::parse`. -/
def cacheOf {α : Type} : Option (PResult JpegError α) → Option α
  | Option.some (PResult.ok v) => Option.some v
  | _ => Option.none

/-- `Meta::parse` (`meta/meta.rs`): read a 2-byte header; a non-JPEG header
is the unknown-header error; otherwise parse the JPEG container (its error
propagates), run the two cache fills, discard their results and return
`Ok`.  A panic inside the Exif decode propagates. -/
def Meta.parse (input : List Nat) : PResult MetaError Meta :=
  if is_jpeg (input.take 2) then
    match Jpeg.parse input with
    | PResult.err e => PResult.err (MetaError.jpeg e)
    | PResult.panicked => PResult.panicked
    | PResult.ok j =>
      match Jpeg.exif j with
      | Option.some PResult.panicked => PResult.panicked
      | _ => PResult.ok (Meta.mk (Option.some j) (cacheOf (Jpeg.jfif j)) (cacheOf (Jpeg.exif j)))
  else PResult.err (MetaError.unknownHeader (input.take 2))

/-! Slice-based segment parser from `formats/jpeg/segment.rs` (the variant
whose error type distinguishes truncation from structural failure). -/

namespace formats

/-- `segment::parse_marker`: a `0xFF` prefix byte then the marker number.
A missing prefix or marker byte is a truncated error (nom `Incomplete`);
a wrong prefix byte is a structural parse error (nom tag mismatch). -/
def parse_marker (input : List Nat) : PResult JpegError (List Nat × Nat) :=
  match input with
  | [] => PResult.err (JpegError.truncated JpegCtx.segmentMarker)
  | b :: rest =>
    if b = 255 then
      match rest with
      | [] => PResult.err (JpegError.truncated JpegCtx.segmentMarker)
      | n :: rest2 => PResult.ok (rest2, n)
    else PResult.err (JpegError.parse JpegCtx.segmentMarker)

/-- `segment::parse_length`: 2-byte big-endian length that includes its own
two bytes; the unchecked `u16` subtraction `val - 2` is a debug-build
overflow panic when the value is below 2. -/
def parse_length : List Nat → PResult JpegError (List Nat × Nat)
  | l0 :: l1 :: rest =>
    if l0 * 256 + l1 < 2 then PResult.panicked
    else PResult.ok (rest, l0 * 256 + l1 - 2)
  | _ => PResult.err (JpegError.truncated JpegCtx.segmentLength)

/-- `segment::parse_data`: exactly `len` payload bytes. -/
def parse_data (input : List Nat) (len : Nat) : PResult JpegError (List Nat × List Nat) :=
  if input.length < len then PResult.err (JpegError.truncated JpegCtx.segmentData)
  else PResult.ok (input.drop len, input.take len)

/-- `segment::parse`: dispatch on the marker — APP0/APP1/DQT/SOF/DHT/DRI
(0xE0/0xE1/0xDB/0xC0/0xC4/0xDD) carry a length and payload, SOS (0xDA) is
a data-less terminal segment, anything else is the unknown-marker
structural error carrying the two marker bytes. -/
def parse (input : List Nat) : PResult JpegError (List Nat × Segment) :=
  match parse_marker input with
  | PResult.err er => PResult.err er
  | PResult.panicked => PResult.panicked
  | PResult.ok (r1, n) =>
    if n = 224 ∨ n = 225 ∨ n = 219 ∨ n = 192 ∨ n = 196 ∨ n = 221 then
      match parse_length r1 with
      | PResult.err er => PResult.err er
      | PResult.panicked => PResult.panicked
      | PResult.ok (r2, len) =>
        match parse_data r2 len with
        | PResult.err er => PResult.err er
        | PResult.panicked => PResult.panicked
        | PResult.ok (r3, d) => PResult.ok (r3, Segment.mk [255, n] len (Option.some d))
    else if n = 218 then PResult.ok (r1, Segment.mk [255, n] 0 Option.none)
    else PResult.err ⟨JpegErrorKind.parseFailed, JpegCtx.segmentMarkerUnknown, [255, n]⟩

end formats

/-- The 854-byte synthetic big-endian Exif test block `EXIF_TEST_DATA`
from `meta/exif/exif.rs` (TIFF header, IFD0 with 6 fields, an Exif sub-IFD
with 3 fields, IFD1 with 2 fields, and the thumbnail JPEG bytes). -/
def EXIF_TEST_DATA : List Nat := [
  77, 77, 0, 42, 0, 0, 0, 8, 0, 6, 1, 14, 0, 2, 0, 0, 0, 11, 0, 0,
  0, 86, 1, 26, 0, 5, 0, 0, 0, 1, 0, 0, 0, 98, 1, 27, 0, 5, 0, 0,
  0, 1, 0, 0, 0, 106, 1, 40, 0, 3, 0, 0, 0, 1, 0, 2, 0, 0, 1, 50,
  0, 2, 0, 0, 0, 20, 0, 0, 0, 114, 135, 105, 0, 4, 0, 0, 0, 1, 0, 0,
  0, 134, 0, 0, 0, 176, 84, 101, 115, 116, 32, 105, 109, 97, 103, 101, 0, 70, 0, 0,
  0, 72, 0, 0, 0, 1, 0, 0, 0, 72, 0, 0, 0, 1, 50, 48, 49, 54, 58, 48,
  53, 58, 48, 52, 32, 48, 51, 58, 48, 50, 58, 48, 49, 0, 0, 3, 144, 0, 0, 7,
  0, 0, 0, 4, 48, 50, 51, 48, 160, 2, 0, 3, 0, 0, 0, 1, 0, 15, 0, 0,
  160, 3, 0, 3, 0, 0, 0, 1, 0, 7, 0, 0, 0, 0, 0, 0, 0, 2, 2, 1,
  0, 4, 0, 0, 0, 1, 0, 0, 0, 206, 2, 2, 0, 4, 0, 0, 0, 1, 0, 0,
  2, 136, 0, 0, 0, 0, 255, 216, 255, 224, 0, 16, 74, 70, 73, 70, 0, 1, 1, 0,
  0, 1, 0, 1, 0, 0, 255, 219, 0, 67, 0, 8, 6, 6, 7, 6, 5, 8, 7, 7,
  7, 9, 9, 8, 10, 12, 20, 13, 12, 11, 11, 12, 25, 18, 19, 15, 20, 29, 26, 31,
  30, 29, 26, 28, 28, 32, 36, 46, 39, 32, 34, 44, 35, 28, 28, 40, 55, 41, 44, 48,
  49, 52, 52, 52, 31, 39, 57, 61, 56, 50, 60, 46, 51, 52, 50, 255, 219, 0, 67, 1,
  9, 9, 9, 12, 11, 12, 24, 13, 13, 24, 50, 33, 28, 33, 50, 50, 50, 50, 50, 50,
  50, 50, 50, 50, 50, 50, 50, 50, 50, 50, 50, 50, 50, 50, 50, 50, 50, 50, 50, 50,
  50, 50, 50, 50, 50, 50, 50, 50, 50, 50, 50, 50, 50, 50, 50, 50, 50, 50, 50, 50,
  50, 50, 50, 50, 255, 192, 0, 17, 8, 0, 3, 0, 7, 3, 1, 34, 0, 2, 17, 1,
  3, 17, 1, 255, 196, 0, 31, 0, 0, 1, 5, 1, 1, 1, 1, 1, 1, 0, 0, 0,
  0, 0, 0, 0, 0, 1, 2, 3, 4, 5, 6, 7, 8, 9, 10, 11, 255, 196, 0, 181,
  16, 0, 2, 1, 3, 3, 2, 4, 3, 5, 5, 4, 4, 0, 0, 1, 125, 1, 2, 3,
  0, 4, 17, 5, 18, 33, 49, 65, 6, 19, 81, 97, 7, 34, 113, 20, 50, 129, 145, 161,
  8, 35, 66, 177, 193, 21, 82, 209, 240, 36, 51, 98, 114, 130, 9, 10, 22, 23, 24, 25,
  26, 37, 38, 39, 40, 41, 42, 52, 53, 54, 55, 56, 57, 58, 67, 68, 69, 70, 71, 72,
  73, 74, 83, 84, 85, 86, 87, 88, 89, 90, 99, 100, 101, 102, 103, 104, 105, 106, 115, 116,
  117, 118, 119, 120, 121, 122, 131, 132, 133, 134, 135, 136, 137, 138, 146, 147, 148, 149, 150, 151,
  152, 153, 154, 162, 163, 164, 165, 166, 167, 168, 169, 170, 178, 179, 180, 181, 182, 183, 184, 185,
  186, 194, 195, 196, 197, 198, 199, 200, 201, 202, 210, 211, 212, 213, 214, 215, 216, 217, 218, 225,
  226, 227, 228, 229, 230, 231, 232, 233, 234, 241, 242, 243, 244, 245, 246, 247, 248, 249, 250, 255,
  196, 0, 31, 1, 0, 3, 1, 1, 1, 1, 1, 1, 1, 1, 1, 0, 0, 0, 0, 0,
  0, 1, 2, 3, 4, 5, 6, 7, 8, 9, 10, 11, 255, 196, 0, 181, 17, 0, 2, 1,
  2, 4, 4, 3, 4, 7, 5, 4, 4, 0, 1, 2, 119, 0, 1, 2, 3, 17, 4, 5,
  33, 49, 6, 18, 65, 81, 7, 97, 113, 19, 34, 50, 129, 8, 20, 66, 145, 161, 177, 193,
  9, 35, 51, 82, 240, 21, 98, 114, 209, 10, 22, 36, 52, 225, 37, 241, 23, 24, 25, 26,
  38, 39, 40, 41, 42, 53, 54, 55, 56, 57, 58, 67, 68, 69, 70, 71, 72, 73, 74, 83,
  84, 85, 86, 87, 88, 89, 90, 99, 100, 101, 102, 103, 104, 105, 106, 115, 116, 117, 118, 119,
  120, 121, 122, 130, 131, 132, 133, 134, 135, 136, 137, 138, 146, 147, 148, 149, 150, 151, 152, 153,
  154, 162, 163, 164, 165, 166, 167, 168, 169, 170, 178, 179, 180, 181, 182, 183, 184, 185, 186, 194,
  195, 196, 197, 198, 199, 200, 201, 202, 210, 211, 212, 213, 214, 215, 216, 217, 218, 226, 227, 228,
  229, 230, 231, 232, 233, 234, 242, 243, 244, 245, 246, 247, 248, 249, 250, 255, 218, 0, 12, 3,
  1, 0, 2, 17, 3, 17, 0, 63, 0, 244, 93, 30, 21, 185, 150, 210, 9, 154, 87, 137,
  12, 133, 83, 205, 108, 119, 247, 230, 138, 40, 160, 15, 255, 217]

/-- The kind of the error a parse result carries, if it is an error. -/
def errKind {α : Type} : PResult JpegError α → Option JpegErrorKind
  | PResult.err e => Option.some e.kind
  | _ => Option.none

/-! Concrete inputs and projections used by the individual claims. -/

/-- The IFD list produced by running the IFD engine over `EXIF_TEST_DATA`
from the first-IFD offset (position 4, big-endian), as in the source test
`test_parse_ifds`. -/
def c1_ifds : List Ifd :=
  match parse_ifds EXIF_TEST_DATA 4 Endian.big with
  | PResult.ok (_, l) => l
  | _ => []

/-- The string `Test image` (bytes 84,101,115,116,32,105,109,97,103,101). -/
def TEST_IMAGE : String :=
  String.mk (List.map Char.ofNat [84, 101, 115, 116, 32, 105, 109, 97, 103, 101])

/-- A little-endian TIFF buffer holding IFD0 with one inline
`UNSIGNED_SHORT` field (tag 0x0100, 1 component, logical value 2) and a
zero next-IFD offset. -/
def IFD0_SHORT_LE : List Nat :=
  [73, 73, 42, 0, 8, 0, 0, 0,
   1, 0,
   0, 1, 3, 0, 1, 0, 0, 0, 2, 0, 0, 0,
   0, 0, 0, 0]

/-- The big-endian encoding of the same logical IFD0 as `IFD0_SHORT_LE`
(tag 0x0100, `UNSIGNED_SHORT`, 1 component, value 2, zero next-IFD
offset). -/
def IFD0_SHORT_BE : List Nat :=
  [77, 77, 0, 42, 0, 0, 0, 8,
   0, 1,
   1, 0, 0, 3, 0, 0, 0, 1, 0, 2, 0, 0,
   0, 0, 0, 0]

/-- The decoded `to_unsigned` values of every field of every IFD of an IFD
chain parse (empty on error). -/
def chainUnsigneds (r : PResult ExifError (Nat × List Ifd)) : List (List (Option Nat)) :=
  match r with
  | PResult.ok (_, l) => l.map (fun i => i.fields.map (fun f => f.to_unsigned))
  | _ => []

/-- The inline `UNSIGNED_SHORT` field decoded from `IFD0_SHORT_BE` at
position 10: its data is the full 4-byte value word, not truncated to the
2-byte field length. -/
def c2_inline_field : IfdField :=
  IfdField.mk Endian.big 256 3 1 Option.none (Option.some [0, 2, 0, 0])

/-- The out-of-line ASCII field of the source fixture in
`test_parse_ifd_field_header_big_endian` (tag 270, 5 components,
offset 22). -/
def C2_FIELD_DATA : List Nat :=
  [77, 77, 0, 26, 0, 0, 0, 8, 0, 1,
   1, 14, 0, 2, 0, 0, 0, 5, 0, 0, 0, 22,
   0, 0, 0, 0, 1]

/-- The field parsed from `C2_FIELD_DATA` at position 10. -/
def c2_offset_field : IfdField :=
  IfdField.mk Endian.big 270 2 5 (Option.some 22) (Option.some [0, 0, 0, 0, 1])

/-- A TIFF buffer whose first-IFD offset (4) points backward into the
8 header bytes already consumed when the offset is read. -/
def CHAIN_OFFSET_BACKWARD : List Nat := [77, 77, 0, 42, 0, 0, 0, 4]

/-- A TIFF buffer whose first-IFD offset (1000) points past the end of the
8-byte buffer. -/
def CHAIN_OFFSET_PAST_END : List Nat := [77, 77, 0, 42, 0, 0, 3, 232]

/-- The source fixture of `test_parse_ifd_offset_negative`: a field header
whose data length (5) exceeds 4 and whose offset (1) is below the 12 bytes
already consumed. -/
def FIELD_OFFSET_BACKWARD : List Nat :=
  [1, 14, 0, 2, 0, 0, 0, 5, 0, 0, 0, 1, 0, 0, 0, 0, 1]

/-- A 12-byte field header whose data offset (100) points past the end of
the buffer. -/
def FIELD_OFFSET_PAST_END : List Nat :=
  [1, 14, 0, 2, 0, 0, 0, 5, 0, 0, 0, 100]

/-- An Exif payload whose single IFD0 field is an inline `UNSIGNED_LONG`
with value word zero (a legitimate inline value of 0). -/
def ZERO_WORD_PAYLOAD : List Nat :=
  [69, 120, 105, 102, 0, 0,
   77, 77, 0, 42, 0, 0, 0, 8,
   0, 1,
   1, 0, 0, 4, 0, 0, 0, 1, 0, 0, 0, 0]

/-- An Exif payload whose first-IFD offset is zero: the chain terminates
immediately with no IFDs. -/
def EMPTY_CHAIN_PAYLOAD : List Nat :=
  [69, 120, 105, 102, 0, 0, 77, 77, 0, 42, 0, 0, 0, 0]

/-- A JPEG stream whose segment scan succeeds (one APP0 segment of payload
length 2) but whose APP0 payload is not a structurally valid JFIF
record. -/
def BAD_JFIF_JPEG : List Nat := [255, 216, 255, 224, 0, 4, 0, 0]

set_option maxRecDepth 8000

/-! Helper lemmas. -/

/-- A 2-byte read succeeds whenever both bytes are inside the buffer. -/
theorem u16At_total (input : List Nat) (pos : Nat) (e : Endian)
    (h : pos + 2 ≤ input.length) : ∃ v, u16At input pos e = Option.some v := by
  have h1 : pos < input.length := by omega
  have h2 : pos + 1 < input.length := by omega
  rw [u16At, List.get?_eq_get h1, List.get?_eq_get h2]
  exact ⟨_, rfl⟩

/-- A 4-byte read succeeds whenever all four bytes are inside the buffer. -/
theorem u32At_total (input : List Nat) (pos : Nat) (e : Endian)
    (h : pos + 4 ≤ input.length) : ∃ v, u32At input pos e = Option.some v := by
  have h1 : pos < input.length := by omega
  have h2 : pos + 1 < input.length := by omega
  have h3 : pos + 2 < input.length := by omega
  have h4 : pos + 3 < input.length := by omega
  rw [u32At, List.get?_eq_get h1, List.get?_eq_get h2, List.get?_eq_get h3,
    List.get?_eq_get h4]
  exact ⟨_, rfl⟩

/-- Inversion of a successful `parse_ifd_data_or_offset`: the word read in
the endianness of the IFD is the offset, it is non-zero, the data bytes are its
big-endian re-serialization, and four bytes were consumed. -/
theorem parse_ifd_data_or_offset_ok {input : List Nat} {pos : Nat} {e : Endian}
    {pos2 : Nat} {db : List Nat} {off : Nat}
    (h : parse_ifd_data_or_offset input pos e = PResult.ok (pos2, db, off)) :
    u32At input pos e = Option.some off ∧ off ≠ 0 ∧ db = beBytes4 off ∧ pos2 = pos + 4 := by
  cases hu : u32At input pos e with
  | none => simp only [parse_ifd_data_or_offset, hu] at h; cases h
  | some v =>
    simp only [parse_ifd_data_or_offset, hu] at h
    by_cases hv : v = 0
    · rw [if_pos hv] at h; cases h
    · rw [if_neg hv] at h
      cases h
      exact ⟨rfl, hv, rfl, rfl⟩

/-- C1 (counterexample): running the IFD engine over the 854-byte synthetic
big-endian Exif test block does not yield 3 IFDs — the decoder follows only
the next-IFD chain, never the Exif sub-IFD pointer tag 0x8769, so there is
no third IFD and `ifds[2]` does not exist.  The source test
`test_parse_ifds` itself asserts `ifds.len() == 2`. -/
theorem c1_counterexample : ¬ c1_ifds.length = 3 ∧ c1_ifds.get? 2 = Option.none := by
  constructor
  · decide
  · decide

/-- C1 (amended): parsing the 854-byte synthetic big-endian Exif test block
with the IFD engine yields exactly 2 IFDs (IFD0 and IFD1; the Exif sub-IFD
pointer tag 0x8769 is present in IFD0 with value 134 but is not followed);
the IFD0 field with tag 0x010E decodes via offset 86 to the ASCII string
`Test image`, the IFD0 field with tag 0x011A decodes to the rational 72/1,
and the IFD1 (`ifds[1]`) field with tag 0x0202 decodes to the unsigned
integer 648. -/
theorem c1_theorem :
    c1_ifds.length = 2
    ∧ (c1_ifds.head?.bind (fun i => i.fieldByTag 270)).map IfdField.offset
        = Option.some (Option.some 86)
    ∧ (c1_ifds.head?.bind (fun i => i.fieldByTag 270)).map IfdField.to_ascii
        = Option.some (Option.some TEST_IMAGE)
    ∧ (c1_ifds.head?.bind (fun i => i.fieldByTag 282)).map IfdField.to_rationals
        = Option.some (PResult.ok [Rational.mk 72 1])
    ∧ ((c1_ifds.get? 1).bind (fun i => i.fieldByTag 514)).map IfdField.to_unsigned
        = Option.some (Option.some 648)
    ∧ (c1_ifds.head?.bind (fun i => i.fieldByTag 34665)).map IfdField.to_unsigned
        = Option.some (Option.some 134) := by
  refine ⟨by decide, by decide, by decide, by decide, by decide, by decide⟩

/-- C3: decoding the little-endian and the big-endian encoding of the same
logical IFD0 field set (one inline `UNSIGNED_SHORT` field, tag 0x0100,
1 component, logical value 2) does not produce identical `to_unsigned`
results: the inline value word is re-serialized big-endian by
`parse_ifd_data_or_offset`, but `to_unsigned` still reads it in the
source endianness of the field, so the little-endian encoding decodes to 0
while the big-endian encoding decodes to 2. -/
theorem c3_theorem :
    chainUnsigneds (parse_ifds IFD0_SHORT_LE 4 Endian.little) = [[Option.some 0]]
    ∧ chainUnsigneds (parse_ifds IFD0_SHORT_BE 4 Endian.big) = [[Option.some 2]]
    ∧ ¬ chainUnsigneds (parse_ifds IFD0_SHORT_LE 4 Endian.little)
        = chainUnsigneds (parse_ifds IFD0_SHORT_BE 4 Endian.big) := by
  refine ⟨by decide, by decide, by decide⟩

/-- C4: a next-IFD chain offset pointing backward into already-consumed
bytes makes `parse_ifds` panic (the unchecked `offset - consumed` usize
subtraction overflows in a debug build) instead of returning the
negative-offset error; a chain offset past the end of the buffer is a
parse error; a field data offset pointing backward is the explicit
negative-offset error and one pointing past the end is a parse error —
none of these return `Ok`. -/
theorem c4_theorem :
    parse_ifds CHAIN_OFFSET_BACKWARD 4 Endian.big = PResult.panicked
    ∧ parse_ifds CHAIN_OFFSET_PAST_END 4 Endian.big
        = PResult.err (ExifError.parse ExifCtx.offsetToIfd)
    ∧ parse_ifd_field FIELD_OFFSET_BACKWARD 0 Endian.big
        = PResult.err (ExifError.parse ExifCtx.ifdFieldOffsetNegative)
    ∧ parse_ifd_field FIELD_OFFSET_PAST_END 0 Endian.big
        = PResult.err (ExifError.parse ExifCtx.ifdFieldOffset) := by
  refine ⟨by decide, by decide, by decide, by decide⟩

/-- C5: a next-IFD offset word equal to zero terminates the IFD chain walk
normally: the `OffsetIsZero` error raised by the offset read is intercepted
by the chain loop, which returns `Ok` with exactly the IFDs accumulated so
far and does not surface the zero offset as an error; concretely, an Exif
payload whose first-IFD offset is zero parses to `Ok` with no IFDs. -/
theorem c5_theorem :
    (∀ (input : List Nat) (pos : Nat) (e : Endian) (acc : List Ifd) (n : Nat),
      u32At input pos e = Option.some 0 →
      parse_ifdsAux input e (n + 1) pos acc = PResult.ok (pos, acc))
    ∧ Exif.parse EMPTY_CHAIN_PAYLOAD = PResult.ok (Exif.mk []) := by
  constructor
  · intro input pos e acc n h0
    simp [parse_ifdsAux, parse_ifd_data_or_offset, h0, ExifError.offsetZero]
  · decide

/-- Witness for C5 at a concrete input: the all-zero 4-byte buffer read at
position 0 yields the offset word 0, and the chain loop returns the
accumulator unchanged. -/
theorem c5_witness :
    u32At [0, 0, 0, 0] 0 Endian.big = Option.some 0
    ∧ parse_ifdsAux [0, 0, 0, 0] Endian.big 1 0 [] = PResult.ok (0, []) :=
  ⟨by decide, c5_theorem.1 [0, 0, 0, 0] 0 Endian.big [] 0 (by decide)⟩

/-- C6 (counterexample): for the JPEG stream `BAD_JFIF_JPEG` the segment
scan succeeds (one APP0 segment with payload `[0, 0]`), the APP0 payload
fails JFIF structural decoding, and yet `Meta::parse` returns `Ok` (with
the cached JFIF left unset) rather than an error: the results of
`cache_jfif`/`cache_exif` are discarded. -/
theorem c6_counterexample :
    Jfif.parse [0, 0] = PResult.err ⟨JfifErrorKind.identifierInvalid, []⟩
    ∧ parse_segments [255, 224, 0, 4, 0, 0]
        = PResult.ok ([Segment.mk [255, 224] 2 (Option.some [0, 0])], [])
    ∧ Meta.parse BAD_JFIF_JPEG
        = PResult.ok (Meta.mk
            (Option.some (Jpeg.mk [Segment.mk [255, 224] 2 (Option.some [0, 0])]))
            Option.none Option.none) := by
  refine ⟨by decide, by decide, by decide⟩

/-- C10: an IFD field whose 4-byte value/offset word is zero (for example
an inline `UNSIGNED_LONG` legitimately holding 0) fails with the
`OffsetIsZero` error, and since that error is intercepted only at the
IFD-chain level (around the next-IFD offset read) and not at the field
level, a whole Exif decode containing such a field fails rather than
recording the value of the field as zero. -/
theorem c10_theorem :
    (∀ (input : List Nat) (pos : Nat) (e : Endian),
      pos + 12 ≤ input.length →
      u32At input (pos + 8) e = Option.some 0 →
      parse_ifd_field input pos e = PResult.err ExifError.offsetZero)
    ∧ Exif.parse ZERO_WORD_PAYLOAD = PResult.err ExifError.offsetZero := by
  constructor
  · intro input pos e hlen h0
    obtain ⟨t, ht⟩ := u16At_total input pos e (by omega)
    obtain ⟨fo, hf⟩ := u16At_total input (pos + 2) e (by omega)
    obtain ⟨c, hc⟩ := u32At_total input (pos + 4) e (by omega)
    simp [parse_ifd_field, ht, hf, hc, parse_ifd_data_or_offset, h0, ExifError.offsetZero]
  · decide

/-- Witness for C10 at a concrete input: a 12-byte all-zero field header
(the value/offset word at bytes 8..12 is zero) fails with `OffsetIsZero`. -/
theorem c10_witness :
    ((0 : Nat) + 12 ≤ ([0, 0, 0, 0, 0, 0, 0, 0, 0, 0, 0, 0] : List Nat).length
      ∧ u32At [0, 0, 0, 0, 0, 0, 0, 0, 0, 0, 0, 0] (0 + 8) Endian.big = Option.some 0)
    ∧ parse_ifd_field [0, 0, 0, 0, 0, 0, 0, 0, 0, 0, 0, 0] 0 Endian.big
        = PResult.err ExifError.offsetZero :=
  ⟨⟨by decide, by decide⟩,
    c10_theorem.1 [0, 0, 0, 0, 0, 0, 0, 0, 0, 0, 0, 0] 0 Endian.big (by decide) (by decide)⟩

/-- C9: for every APP0 payload whose JFIF identifier parses and whose
density unit byte is 0, 1 or 2, the decode fails with the
thumbnail-invalid error exactly when both thumbnail dimensions are
non-zero; when at least one dimension is zero it succeeds and the returned
value has no thumbnail. -/
theorem c9_theorem :
    ∀ (major minor du x1 x2 y1 y2 xt yt : Nat) (rest : List Nat),
    du = 0 ∨ du = 1 ∨ du = 2 →
    ((xt ≠ 0 ∧ yt ≠ 0 →
      Jfif.parse ([74, 70, 73, 70, 0, major, minor, du, x1, x2, y1, y2, xt, yt] ++ rest)
        = PResult.err ⟨JfifErrorKind.thumbnailInvalid, rest⟩)
    ∧ ((xt = 0 ∨ yt = 0) →
      Jfif.parse ([74, 70, 73, 70, 0, major, minor, du, x1, x2, y1, y2, xt, yt] ++ rest)
        = PResult.ok ⟨major, minor, densityFromByte du, x1 * 256 + x2, y1 * 256 + y2,
            xt, yt, Option.none⟩)) := by
  intro major minor du x1 x2 y1 y2 xt yt rest hdu
  have hknown : ¬ densityFromByte du = DensityUnit.unknown := by
    rcases hdu with h | h | h <;> subst h <;> decide
  constructor
  · intro hxy
    simp [Jfif.parse, hknown, if_pos hxy]
  · intro hz
    have hxy : ¬ (xt ≠ 0 ∧ yt ≠ 0) := by tauto
    simp [Jfif.parse, hknown, if_neg hxy]

/-- Witness for C9 at concrete inputs: density unit 1, thumbnail
dimensions 3×4 fail, dimensions 0×4 succeed with no thumbnail. -/
theorem c9_witness :
    ((0 : Nat) = 0 ∨ (0 : Nat) = 1 ∨ (0 : Nat) = 2)
    ∧ ((3 ≠ 0 ∧ 4 ≠ 0 →
        Jfif.parse ([74, 70, 73, 70, 0, 1, 2, 0, 0, 72, 0, 72, 3, 4] ++ [9])
          = PResult.err ⟨JfifErrorKind.thumbnailInvalid, [9]⟩)
      ∧ (((3 : Nat) = 0 ∨ (4 : Nat) = 0) →
        Jfif.parse ([74, 70, 73, 70, 0, 1, 2, 0, 0, 72, 0, 72, 3, 4] ++ [9])
          = PResult.ok ⟨1, 2, densityFromByte 0, 0 * 256 + 72, 0 * 256 + 72,
              3, 4, Option.none⟩)) :=
  ⟨Or.inl rfl, c9_theorem 1 2 0 0 72 0 72 3 4 [9] (Or.inl rfl)⟩

/-- C2 (counterexample): the inline `UNSIGNED_SHORT` field of
`IFD0_SHORT_BE` (tag 0x0100, 1 component, length 2) parses successfully,
but its data is the full 4-byte value word — it is not truncated to the
2-byte field length, so `data.len() == length(format, components)` fails
for inline fields whose length is below 4. -/
theorem c2_counterexample :
    parse_ifd_field IFD0_SHORT_BE 10 Endian.big = PResult.ok (22, c2_inline_field)
    ∧ c2_inline_field.length = 2
    ∧ c2_inline_field.data.map List.length = Option.some 4
    ∧ ¬ c2_inline_field.data.map List.length = Option.some c2_inline_field.length := by
  refine ⟨by decide, by decide, by decide, by decide⟩

/-- C2 (amended): for every IFD field successfully decoded, the parser
consumed exactly the 12 header bytes, and: if `length(format, components)`
exceeds 4 then `offset` is `Some o` with `o` at or beyond the consumed
header bytes, the data is exactly the backing-buffer bytes at
`[o, o + length)` and has length `length`; if `length ≤ 4` then `offset`
is `None` and the data is the non-zero 4-byte value word re-serialized in
big-endian — always 4 bytes, not truncated to `length`. -/
theorem c2_theorem :
    ∀ (input : List Nat) (pos : Nat) (e : Endian) (pos' : Nat) (f : IfdField),
    parse_ifd_field input pos e = PResult.ok (pos', f) →
    pos' = pos + 12
    ∧ (4 < f.length →
        ∃ o, f.offset = Option.some o ∧ pos + 12 ≤ o ∧ o + f.length ≤ input.length
          ∧ f.data = Option.some ((input.drop o).take f.length)
          ∧ f.data.map List.length = Option.some f.length)
    ∧ (f.length ≤ 4 →
        f.offset = Option.none
        ∧ ∃ w, u32At input (pos + 8) e = Option.some w ∧ w ≠ 0
          ∧ f.data = Option.some (beBytes4 w)
          ∧ f.data.map List.length = Option.some 4) := by
  intro input pos e pos' f h
  cases h1 : u16At input pos e with
  | none => simp only [parse_ifd_field, h1] at h; cases h
  | some tag =>
  cases h2 : u16At input (pos + 2) e with
  | none => simp only [parse_ifd_field, h1, h2] at h; cases h
  | some fmt =>
  cases h3 : u32At input (pos + 4) e with
  | none => simp only [parse_ifd_field, h1, h2, h3] at h; cases h
  | some comps =>
  cases h4 : parse_ifd_data_or_offset input (pos + 8) e with
  | err er => simp only [parse_ifd_field, h1, h2, h3, h4] at h; cases h
  | panicked => simp only [parse_ifd_field, h1, h2, h3, h4] at h; cases h
  | ok triple =>
    obtain ⟨pos2, dataBytes, offset⟩ := triple
    obtain ⟨hw, hw0, hdb, hp2⟩ := parse_ifd_data_or_offset_ok h4
    subst hdb hp2
    simp only [parse_ifd_field, h1, h2, h3, h4] at h
    by_cases hl : 4 < (IfdField.new e tag fmt comps).length
    · rw [if_pos hl] at h
      by_cases ho1 : offset < pos + 8 + 4
      · rw [if_pos ho1] at h; cases h
      · rw [if_neg ho1] at h
        by_cases ho2 : input.length < offset
        · rw [if_pos ho2] at h; cases h
        · rw [if_neg ho2] at h
          by_cases ho3 : input.length < offset + (IfdField.new e tag fmt comps).length
          · rw [if_pos ho3] at h; cases h
          · rw [if_neg ho3] at h
            cases h
            refine ⟨by omega, ?_, ?_⟩
            · intro _
              refine ⟨offset, rfl, by omega, by
                simpa [IfdField.new, IfdField.length] using ho3, rfl, ?_⟩
              have hlen : ((input.drop offset).take
                  (IfdField.new e tag fmt comps).length).length
                  = (IfdField.new e tag fmt comps).length := by
                simp only [List.length_take, List.length_drop]
                simp only [IfdField.new, IfdField.length] at ho3 ⊢
                omega
              simpa [IfdField.new, IfdField.length] using congrArg Option.some hlen
            · intro hle
              exact absurd hle (by simpa [IfdField.new, IfdField.length] using hl)
    · rw [if_neg hl] at h
      cases h
      refine ⟨by omega, ?_, ?_⟩
      · intro hgt
        exact absurd hgt (by simpa [IfdField.new, IfdField.length] using hl)
      · intro _
        exact ⟨rfl, offset, hw, hw0, rfl, by simp [beBytes4]⟩

/-- Witness for C2 at a concrete input: the out-of-line ASCII field of the
big-endian field fixture of the source (tag 270, 5 components, offset 22). -/
theorem c2_witness :
    parse_ifd_field C2_FIELD_DATA 10 Endian.big = PResult.ok (22, c2_offset_field)
    ∧ ((22 : Nat) = 10 + 12
      ∧ (4 < c2_offset_field.length →
          ∃ o, c2_offset_field.offset = Option.some o ∧ 10 + 12 ≤ o
            ∧ o + c2_offset_field.length ≤ C2_FIELD_DATA.length
            ∧ c2_offset_field.data
                = Option.some ((C2_FIELD_DATA.drop o).take c2_offset_field.length)
            ∧ c2_offset_field.data.map List.length = Option.some c2_offset_field.length)
      ∧ (c2_offset_field.length ≤ 4 →
          c2_offset_field.offset = Option.none
          ∧ ∃ w, u32At C2_FIELD_DATA (10 + 8) Endian.big = Option.some w ∧ w ≠ 0
            ∧ c2_offset_field.data = Option.some (beBytes4 w)
            ∧ c2_offset_field.data.map List.length = Option.some 4)) :=
  ⟨by decide, c2_theorem C2_FIELD_DATA 10 Endian.big 22 c2_offset_field (by decide)⟩

/-- C6 (amended): when the segment scan succeeds but the APP0 payload
fails JFIF structural decoding, `Meta::parse` does not return an error: it
returns `Ok` with the cached JFIF left `None` (no partial JFIF value),
while the cached Exif is whatever the independent APP1 decode produced
(`Some` exactly when an APP1 segment was present and decoded
successfully).  The side condition excludes the (Exif-side) debug-build
panic, under which no value is returned at all. -/
theorem c6_theorem :
    ∀ (r : List Nat) (segs : List Segment) (rest : List Nat) (er : JpegError),
    parse_segments r = PResult.ok (segs, rest) →
    Jpeg.jfif (Jpeg.mk segs) = Option.some (PResult.err er) →
    ¬ Jpeg.exif (Jpeg.mk segs) = Option.some PResult.panicked →
    Meta.parse (255 :: 216 :: r)
      = PResult.ok (Meta.mk (Option.some (Jpeg.mk segs)) Option.none
          (cacheOf (Jpeg.exif (Jpeg.mk segs)))) := by
  intro r segs rest er hseg hjf hex
  have hhdr : is_jpeg ((255 :: 216 :: r).take 2) = true := by
    simp [is_jpeg, List.isPrefixOf]
  have hjp : Jpeg.parse (255 :: 216 :: r) = PResult.ok (Jpeg.mk segs) := by
    simp only [Jpeg.parse, hhdr, if_true, List.drop_succ_cons, List.drop_zero, hseg]
  cases hE : Jpeg.exif (Jpeg.mk segs) with
  | none =>
    simp only [Meta.parse, hhdr, if_true, hjp, hE, cacheOf, hjf]
  | some v =>
    cases v with
    | ok ex => simp only [Meta.parse, hhdr, if_true, hjp, hE, cacheOf, hjf]
    | err e2 => simp only [Meta.parse, hhdr, if_true, hjp, hE, cacheOf, hjf]
    | panicked => exact absurd hE hex

/-- Witness for C6 at a concrete input: the scan of the segment stream of `BAD_JFIF_JPEG` yields one APP0 segment whose `[0, 0]` payload fails JFIF
decoding, there is no APP1 segment, and `Meta::parse` returns `Ok` with no
cached JFIF. -/
theorem c6_witness :
    (parse_segments [255, 224, 0, 4, 0, 0]
        = PResult.ok ([Segment.mk [255, 224] 2 (Option.some [0, 0])], [])
      ∧ Jpeg.jfif (Jpeg.mk [Segment.mk [255, 224] 2 (Option.some [0, 0])])
        = Option.some (PResult.err (JpegError.parse JpegCtx.jfifParsing))
      ∧ ¬ Jpeg.exif (Jpeg.mk [Segment.mk [255, 224] 2 (Option.some [0, 0])])
        = Option.some PResult.panicked)
    ∧ Meta.parse (255 :: 216 :: [255, 224, 0, 4, 0, 0])
      = PResult.ok (Meta.mk
          (Option.some (Jpeg.mk [Segment.mk [255, 224] 2 (Option.some [0, 0])]))
          Option.none
          (cacheOf (Jpeg.exif (Jpeg.mk [Segment.mk [255, 224] 2 (Option.some [0, 0])])))) :=
  ⟨⟨by decide, by decide, by decide⟩,
    c6_theorem [255, 224, 0, 4, 0, 0] [Segment.mk [255, 224] 2 (Option.some [0, 0])] []
      (JpegError.parse JpegCtx.jfifParsing) (by decide) (by decide) (by decide)⟩

/-- Two steps of the segment-scan loop on a stream holding one APP0
segment (stored length 16, payload 14 bytes) followed by the SOS marker:
the APP0 segment is scanned, the SOS marker stops the scan, and the bytes
after the SOS marker are left unread in the reader. -/
theorem c8_aux (f : Nat) (data trailing : List Nat) (acc : List Segment)
    (h : data.length = 14) :
    parse_segmentsAux (f + 2) ([255, 224, 0, 16] ++ data ++ 255 :: 218 :: trailing) acc
      = PResult.ok (acc ++ [Segment.mk [255, 224] 14 (Option.some data)], trailing) := by
  have ht : (data ++ 255 :: 218 :: trailing).take 14 = data := by
    rw [← h]; exact List.take_left data _
  have hd : (data ++ 255 :: 218 :: trailing).drop 14 = 255 :: 218 :: trailing := by
    rw [← h]; exact List.drop_left data _
  have hlen : ¬ (data ++ 255 :: 218 :: trailing).length < 16 - 2 := by
    simp [List.length_append, h]
  show parse_segmentsAux (f + 1 + 1) _ _ = _
  simp only [parse_segmentsAux, List.cons_append, List.nil_append, skip_until]
  simp only [show (255 : Nat) = 255 from rfl, if_true, reduceIte]
  norm_num
  simp only [hlen, if_false, reduceIte, ht, hd]
  simp only [parse_segmentsAux, skip_until, reduceIte]
  norm_num
  intro hcon
  exact absurd hcon (by omega)

/-- C8: a byte stream of SOI, one APP0 segment (stored length 16, i.e. a
14-byte payload), the SOS marker and arbitrary trailing bytes scans to
exactly one segment (the APP0 segment), and the scan never reads a byte
positioned after the SOS marker: the unconsumed remainder of the reader is
exactly the trailing bytes. -/
theorem c8_theorem :
    ∀ (data trailing : List Nat), data.length = 14 →
    parse_segments ([255, 224, 0, 16] ++ data ++ 255 :: 218 :: trailing)
      = PResult.ok ([Segment.mk [255, 224] 14 (Option.some data)], trailing)
    ∧ Jpeg.parse (255 :: 216 :: ([255, 224, 0, 16] ++ data ++ 255 :: 218 :: trailing))
      = PResult.ok (Jpeg.mk [Segment.mk [255, 224] 14 (Option.some data)]) := by
  intro data trailing h
  have hlen2 : ([255, 224, 0, 16] ++ data ++ 255 :: 218 :: trailing).length + 1
      = (trailing.length + 19) + 2 := by
    simp [List.length_append, h]
    omega
  have hmain : parse_segments ([255, 224, 0, 16] ++ data ++ 255 :: 218 :: trailing)
      = PResult.ok ([Segment.mk [255, 224] 14 (Option.some data)], trailing) := by
    rw [parse_segments, hlen2]
    simpa using c8_aux (trailing.length + 19) data trailing [] h
  refine ⟨hmain, ?_⟩
  have hhdr : is_jpeg ((255 :: 216 ::
      ([255, 224, 0, 16] ++ data ++ 255 :: 218 :: trailing)).take 2) = true := by
    simp [is_jpeg, List.isPrefixOf]
  simp only [Jpeg.parse, hhdr, if_true, List.drop_succ_cons, List.drop_zero, hmain]

/-- Witness for C8 at a concrete input: a 14-byte zero payload and three
trailing bytes. -/
theorem c8_witness :
    ([0, 0, 0, 0, 0, 0, 0, 0, 0, 0, 0, 0, 0, 0] : List Nat).length = 14
    ∧ (parse_segments ([255, 224, 0, 16]
          ++ [0, 0, 0, 0, 0, 0, 0, 0, 0, 0, 0, 0, 0, 0] ++ 255 :: 218 :: [7, 8, 9])
        = PResult.ok ([Segment.mk [255, 224] 14
            (Option.some [0, 0, 0, 0, 0, 0, 0, 0, 0, 0, 0, 0, 0, 0])], [7, 8, 9])
      ∧ Jpeg.parse (255 :: 216 :: ([255, 224, 0, 16]
          ++ [0, 0, 0, 0, 0, 0, 0, 0, 0, 0, 0, 0, 0, 0] ++ 255 :: 218 :: [7, 8, 9]))
        = PResult.ok (Jpeg.mk [Segment.mk [255, 224] 14
            (Option.some [0, 0, 0, 0, 0, 0, 0, 0, 0, 0, 0, 0, 0, 0])])) :=
  ⟨by decide, c8_theorem [0, 0, 0, 0, 0, 0, 0, 0, 0, 0, 0, 0, 0, 0] [7, 8, 9] (by decide)⟩

/-- Truncation half of C7: cutting a successfully parseable segment short
anywhere before the bytes it consumes yields the `Truncated` error kind. -/
theorem c7_trunc :
    ∀ (s r : List Nat) (seg : Segment) (k : Nat),
    formats.parse s = PResult.ok (r, seg) → k < s.length - r.length →
    errKind (formats.parse (s.take k)) = Option.some JpegErrorKind.truncated := by
  intro s r seg k hok hk
  rcases s with _ | ⟨b, s1⟩
  · simp [formats.parse, formats.parse_marker] at hok
  by_cases hb : b = 255
  · subst hb
    rcases s1 with _ | ⟨n, t⟩
    · simp [formats.parse, formats.parse_marker] at hok
    simp only [formats.parse, formats.parse_marker, reduceIte] at hok
    by_cases h6 : n = 224 ∨ n = 225 ∨ n = 219 ∨ n = 192 ∨ n = 196 ∨ n = 221
    · rw [if_pos h6] at hok
      rcases t with _ | ⟨l0, t1⟩
      · simp [formats.parse_length] at hok
      rcases t1 with _ | ⟨l1, t2⟩
      · simp [formats.parse_length] at hok
      simp only [formats.parse_length] at hok
      by_cases hv : l0 * 256 + l1 < 2
      · rw [if_pos hv] at hok; cases hok
      rw [if_neg hv] at hok
      by_cases hdl : t2.length < l0 * 256 + l1 - 2
      · simp [formats.parse_data, hdl] at hok
      simp only [formats.parse_data, if_neg hdl] at hok
      injection hok with hpair
      injection hpair with h1 h2
      subst h1
      have hcons : k < 4 + (l0 * 256 + l1 - 2) := by
        simp only [List.length_cons, List.length_drop] at hk
        omega
      rcases k with _ | ⟨_ | ⟨_ | ⟨_ | k4⟩⟩⟩
      · simp [formats.parse, formats.parse_marker, errKind, JpegError.truncated]
      · simp [List.take_succ_cons, List.take_zero, formats.parse, formats.parse_marker,
          errKind, JpegError.truncated]
      · simp [List.take_succ_cons, List.take_zero, formats.parse, formats.parse_marker,
          if_pos h6, formats.parse_length, errKind, JpegError.truncated]
      · simp [List.take_succ_cons, List.take_zero, formats.parse, formats.parse_marker,
          if_pos h6, formats.parse_length, errKind, JpegError.truncated]
      · have hk4 : k4 < l0 * 256 + l1 - 2 := by omega
        simp [List.take_succ_cons, formats.parse, formats.parse_marker, if_pos h6,
          formats.parse_length, if_neg hv, formats.parse_data, hk4, errKind,
          JpegError.truncated]
    · by_cases h218 : n = 218
      · subst h218
        rw [if_neg h6, if_pos rfl] at hok
        injection hok with hpair
        injection hpair with h1 h2
        subst h1
        have hk2 : k < 2 := by
          simp only [List.length_cons] at hk
          omega
        rcases k with _ | ⟨_ | k2⟩
        · simp [formats.parse, formats.parse_marker, errKind, JpegError.truncated]
        · simp [List.take_succ_cons, List.take_zero, formats.parse, formats.parse_marker,
            errKind, JpegError.truncated]
        · omega
      · rw [if_neg h6, if_neg h218] at hok; cases hok
  · simp [formats.parse, formats.parse_marker, hb] at hok

/-- C7: the truncation side of the claim holds — cutting a parseable
segment short anywhere before the bytes it consumes is `Truncated` (1),
and the kinds are distinct constructors (4) — and two corruption shapes
are indeed structural: a corrupted marker-prefix byte (2) and an unknown
marker number under a correct prefix (3).  But the structural side is not
universal: an APP0 segment of sufficient length whose 2-byte length word
is corrupted below 2 (5) hits the unchecked `u16` subtraction `val - 2`
in `parse_length` — a subtraction-overflow panic in a debug build
(modelled by `panicked`; in a release build the value wraps to 65535 and
the segment-data read then reports the retryable `Truncated` kind for
structurally corrupt content), so such a corruption is not reported as a
structural error. -/
theorem c7_theorem :
    (∀ (s r : List Nat) (seg : Segment) (k : Nat),
      formats.parse s = PResult.ok (r, seg) → k < s.length - r.length →
      errKind (formats.parse (s.take k)) = Option.some JpegErrorKind.truncated)
    ∧ (∀ (b : Nat) (rest : List Nat), ¬ b = 255 →
      errKind (formats.parse (b :: rest)) = Option.some JpegErrorKind.parseFailed)
    ∧ (∀ (n : Nat) (rest : List Nat),
      ¬ (n = 224 ∨ n = 225 ∨ n = 219 ∨ n = 192 ∨ n = 196 ∨ n = 221 ∨ n = 218) →
      errKind (formats.parse (255 :: n :: rest)) = Option.some JpegErrorKind.parseFailed)
    ∧ ¬ JpegErrorKind.truncated = JpegErrorKind.parseFailed
    ∧ formats.parse [255, 224, 0, 1, 1, 2] = PResult.panicked := by
  refine ⟨c7_trunc, ?_, ?_, by decide, by decide⟩
  · intro b rest hb
    simp [formats.parse, formats.parse_marker, hb, errKind, JpegError.parse]
  · intro n rest hn
    have h6 : ¬ (n = 224 ∨ n = 225 ∨ n = 219 ∨ n = 192 ∨ n = 196 ∨ n = 221) := by tauto
    have h218 : ¬ n = 218 := by tauto
    simp only [formats.parse, formats.parse_marker, reduceIte, if_neg h6, if_neg h218]
    simp [errKind]

/-- Witness for C7 at concrete inputs: an APP0 segment cut off inside its
payload is `Truncated`; a corrupted prefix byte and an unknown marker are
structural. -/
theorem c7_witness :
    (formats.parse [255, 224, 0, 4, 1, 2]
        = PResult.ok ([], Segment.mk [255, 224] 2 (Option.some [1, 2]))
      ∧ (5 : Nat) < ([255, 224, 0, 4, 1, 2] : List Nat).length - ([] : List Nat).length
      ∧ errKind (formats.parse (([255, 224, 0, 4, 1, 2] : List Nat).take 5))
        = Option.some JpegErrorKind.truncated)
    ∧ (¬ (0 : Nat) = 255
      ∧ errKind (formats.parse (0 :: [1, 2])) = Option.some JpegErrorKind.parseFailed)
    ∧ (¬ ((233 : Nat) = 224 ∨ (233 : Nat) = 225 ∨ (233 : Nat) = 219 ∨ (233 : Nat) = 192
          ∨ (233 : Nat) = 196 ∨ (233 : Nat) = 221 ∨ (233 : Nat) = 218)
      ∧ errKind (formats.parse (255 :: 233 :: [1, 2]))
        = Option.some JpegErrorKind.parseFailed) :=
  ⟨⟨by decide, by decide,
      c7_theorem.1 [255, 224, 0, 4, 1, 2] [] (Segment.mk [255, 224] 2 (Option.some [1, 2])) 5
        (by decide) (by decide)⟩,
    ⟨by decide, (c7_theorem.2).1 0 [1, 2] (by decide)⟩,
    ⟨by decide, (c7_theorem.2).2.1 233 [1, 2] (by decide)⟩⟩

end Specter
